import Mathlib

/-!
Shallow embedding of `src/demo-project/src/hello.c`, a minimal CPython
extension module.  The C file defines one function `hello_world` whose
returned string is selected at compile time by the preprocessor symbols
`HELLO_MACRO` and `DYNAMIC_MACRO`, a method table `HelloMethods`, a module
definition `hellomodule` and the init entry point `PyInit_demo`.
-/

/-- Build configuration: whether each of the two preprocessor symbols
`HELLO_MACRO` and `DYNAMIC_MACRO` is defined when the file is compiled. -/
structure BuildConfig where
  HELLO_MACRO_defined : Bool
  DYNAMIC_MACRO_defined : Bool
deriving DecidableEq, Repr

/-- Model of a CPython object, covering the shapes used by this module:
`None` (NULL / no value), unicode strings, and argument tuples. -/
inductive PyObject where
  | none : PyObject
  | str : String → PyObject
  | tuple : List PyObject → PyObject
deriving Repr

set_option linter.unusedVariables false

/-- Embedding of `PyUnicode_FromString`: builds a fresh unicode object
from a C string. -/
def PyUnicode_FromString (s : String) : PyObject :=
  PyObject.str s

/-- Embedding of `hello_world` from hello.c.  The `#if defined(...)`
chain is resolved by the build configuration; `self` and `args` occur
nowhere in the C body. -/
def hello_world (cfg : BuildConfig) (self : PyObject) (args : PyObject) :
    PyObject :=
  if cfg.HELLO_MACRO_defined && cfg.DYNAMIC_MACRO_defined then
    PyUnicode_FromString "Hello from Zig CC with Macro and Dynamic Macro!"
  else if cfg.HELLO_MACRO_defined then
    PyUnicode_FromString "Hello from Zig CC with Macro!"
  else
    PyUnicode_FromString "Hello from Zig CC!"

/-- Embedding of `PyUnicode_FromString` as a computation over an
arbitrary ambient state `σ`: it reads and writes no interpreter-visible
state, it only constructs and returns a fresh object. -/
def PyUnicode_FromString_run (σ : Type) (s : String) :
    StateM σ PyObject :=
  pure (PyUnicode_FromString s)

/-- Embedding of the body of `hello_world` as a computation over an
arbitrary ambient state `σ`, following the C body statement by
statement: each branch is a single `return PyUnicode_FromString(...)`. -/
def hello_world_run (σ : Type) (cfg : BuildConfig)
    (self : PyObject) (args : PyObject) : StateM σ PyObject :=
  if cfg.HELLO_MACRO_defined && cfg.DYNAMIC_MACRO_defined then
    PyUnicode_FromString_run σ "Hello from Zig CC with Macro and Dynamic Macro!"
  else if cfg.HELLO_MACRO_defined then
    PyUnicode_FromString_run σ "Hello from Zig CC with Macro!"
  else
    PyUnicode_FromString_run σ "Hello from Zig CC!"

/-- Identifiers for the C functions of this translation unit that can be
stored as `PyCFunction` pointers in a method table. -/
inductive CFunction where
  | hello_world_fn : CFunction
deriving DecidableEq, Repr

/-- Dereference a stored `PyCFunction` pointer: calling the pointed-to
function on `(self, args)` under a build configuration. -/
def callCFunction (f : CFunction) (cfg : BuildConfig)
    (self : PyObject) (args : PyObject) : PyObject :=
  match f with
  | CFunction.hello_world_fn => hello_world cfg self args

/-- CPython's `METH_VARARGS` flag value (0x0001). -/
def METH_VARARGS : Nat := 1

/-- One entry of a `PyMethodDef` array.  `Option` fields model the NULL
pointers of the sentinel entry. -/
structure PyMethodDef where
  ml_name : Option String
  ml_meth : Option CFunction
  ml_flags : Nat
  ml_doc : Option String
deriving DecidableEq, Repr

/-- Embedding of the `HelloMethods` array, including its terminating
NULL sentinel entry. -/
def HelloMethods : List PyMethodDef :=
  [ { ml_name := some "world", ml_meth := some CFunction.hello_world_fn,
      ml_flags := METH_VARARGS, ml_doc := some "Return a greeting." },
    { ml_name := Option.none, ml_meth := Option.none,
      ml_flags := 0, ml_doc := Option.none } ]

/-- Embedding of `struct PyModuleDef` (the fields hello.c sets:
`m_name`, `m_doc`, `m_size`, `m_methods`). -/
structure PyModuleDef where
  m_name : String
  m_doc : Option String
  m_size : Int
  m_methods : List PyMethodDef
deriving DecidableEq, Repr

/-- Embedding of the `hellomodule` module definition from hello.c. -/
def hellomodule : PyModuleDef :=
  { m_name := "demo", m_doc := Option.none, m_size := -1,
    m_methods := HelloMethods }

/-- A loaded module object: its name and the method entries it exposes. -/
structure PyModule where
  name : String
  methods : List PyMethodDef
deriving DecidableEq, Repr

/-- Embedding of `PyModule_Create`: installs the definition's name and
method table on a fresh module object. -/
def PyModule_Create (d : PyModuleDef) : PyModule :=
  { name := d.m_name, methods := d.m_methods }

/-- Embedding of the init entry point `PyInit_demo`. -/
def PyInit_demo : PyModule :=
  PyModule_Create hellomodule

/-- Attribute lookup on a loaded module: find the method entry
registered under `n` (sentinel entries have no name and never match)
and return its stored function pointer. -/
def getMethod (m : PyModule) (n : String) : Option CFunction :=
  (m.methods.find? (fun e => e.ml_name = some n)).bind (fun e => e.ml_meth)

/-- The list of method entries before the NULL sentinel. -/
def realMethods (m : PyModule) : List PyMethodDef :=
  m.methods.takeWhile (fun e => e.ml_name ≠ Option.none)

/-- Claim C1: in every build configuration where HELLO_MACRO is not
defined, whatever the state of DYNAMIC_MACRO, every invocation of the
world operation returns exactly the string "Hello from Zig CC!". -/
theorem world_flagA_unset (cfg : BuildConfig)
    (h : cfg.HELLO_MACRO_defined = false) (self args : PyObject) :
    hello_world cfg self args = PyObject.str "Hello from Zig CC!" := by
  simp [hello_world, PyUnicode_FromString, h]

/-- Witness for C1: a concrete configuration with HELLO_MACRO unset and
DYNAMIC_MACRO set still yields the plain greeting. -/
theorem world_flagA_unset_witness :
    (BuildConfig.mk false true).HELLO_MACRO_defined = false ∧
    hello_world (BuildConfig.mk false true) PyObject.none PyObject.none =
      PyObject.str "Hello from Zig CC!" :=
  ⟨rfl, world_flagA_unset (BuildConfig.mk false true) rfl PyObject.none
    PyObject.none⟩

/-- Claim C2: in every build configuration where both HELLO_MACRO and
DYNAMIC_MACRO are defined, every invocation of the world operation
returns exactly "Hello from Zig CC with Macro and Dynamic Macro!". -/
theorem world_both_set (cfg : BuildConfig)
    (hA : cfg.HELLO_MACRO_defined = true)
    (hB : cfg.DYNAMIC_MACRO_defined = true) (self args : PyObject) :
    hello_world cfg self args =
      PyObject.str "Hello from Zig CC with Macro and Dynamic Macro!" := by
  simp [hello_world, PyUnicode_FromString, hA, hB]

/-- Witness for C2: the configuration with both symbols defined yields
the combined greeting. -/
theorem world_both_set_witness :
    (BuildConfig.mk true true).HELLO_MACRO_defined = true ∧
    (BuildConfig.mk true true).DYNAMIC_MACRO_defined = true ∧
    hello_world (BuildConfig.mk true true) PyObject.none PyObject.none =
      PyObject.str "Hello from Zig CC with Macro and Dynamic Macro!" :=
  ⟨rfl, rfl, world_both_set (BuildConfig.mk true true) rfl rfl PyObject.none
    PyObject.none⟩

/-- Claim C3: in every build configuration where HELLO_MACRO is defined
and DYNAMIC_MACRO is not, every invocation of the world operation
returns exactly "Hello from Zig CC with Macro!". -/
theorem world_only_flagA (cfg : BuildConfig)
    (hA : cfg.HELLO_MACRO_defined = true)
    (hB : cfg.DYNAMIC_MACRO_defined = false) (self args : PyObject) :
    hello_world cfg self args =
      PyObject.str "Hello from Zig CC with Macro!" := by
  simp [hello_world, PyUnicode_FromString, hA, hB]

/-- Witness for C3: the configuration with only HELLO_MACRO defined
yields the single-macro greeting. -/
theorem world_only_flagA_witness :
    (BuildConfig.mk true false).HELLO_MACRO_defined = true ∧
    (BuildConfig.mk true false).DYNAMIC_MACRO_defined = false ∧
    hello_world (BuildConfig.mk true false) PyObject.none PyObject.none =
      PyObject.str "Hello from Zig CC with Macro!" :=
  ⟨rfl, rfl, world_only_flagA (BuildConfig.mk true false) rfl rfl
    PyObject.none PyObject.none⟩

/-- Claim C4: for every build configuration and arbitrary arguments,
the world operation succeeds and returns a non-empty string value. -/
theorem world_total_nonempty (cfg : BuildConfig) (self args : PyObject) :
    ∃ s : String, hello_world cfg self args = PyObject.str s ∧
      0 < s.length := by
  rcases cfg with ⟨a, b⟩
  cases a <;> cases b <;> exact ⟨_, rfl, by decide⟩

/-- Claim C5: the world operation ignores all of its inputs: under a
fixed build configuration, any two invocations with any self values and
any argument objects return the same value. -/
theorem world_ignores_inputs (cfg : BuildConfig)
    (self1 args1 self2 args2 : PyObject) :
    hello_world cfg self1 args1 = hello_world cfg self2 args2 := rfl

/-- Claim C6: within one fixed build configuration, any sequence of
invocations of the world operation returns an identical value at every
position, with no drift between calls. -/
theorem world_no_drift (cfg : BuildConfig)
    (calls : List (PyObject × PyObject)) :
    calls.map (fun c => hello_world cfg c.1 c.2) =
      calls.map (fun _ => hello_world cfg PyObject.none PyObject.none) :=
  rfl

/-- Claim C7: executing the body of the world operation over an
arbitrary ambient state leaves that state unchanged: the call has no
observable side effects. -/
theorem world_frame (σ : Type) (cfg : BuildConfig)
    (self args : PyObject) (s : σ) :
    (hello_world_run σ cfg self args).run s =
      (hello_world cfg self args, s) := by
  rcases cfg with ⟨a, b⟩
  cases a <;> cases b <;> rfl

/-- Claim C8: for every build configuration there is exactly one string
among the three fixed greetings that every invocation of the world
operation returns; it is determined by the two flags alone. -/
theorem world_three_strings (cfg : BuildConfig) :
    ∃! s : String,
      s ∈ ["Hello from Zig CC!", "Hello from Zig CC with Macro!",
           "Hello from Zig CC with Macro and Dynamic Macro!"] ∧
      ∀ self args, hello_world cfg self args = PyObject.str s := by
  rcases cfg with ⟨a, b⟩
  cases a <;> cases b <;>
    exact ⟨_, ⟨by simp, fun self args => rfl⟩,
      fun y hy => PyObject.str.inj
        ((hy.2 PyObject.none PyObject.none).symm.trans rfl)⟩

/-- Claim C9: immediately after `PyInit_demo` runs, the loaded module
exposes, under the registered name "world", the function installed by
the method table, and calling that stored function is calling
`hello_world`. -/
theorem module_exposes_world :
    getMethod PyInit_demo "world" = some CFunction.hello_world_fn ∧
    ∀ cfg self args,
      callCFunction CFunction.hello_world_fn cfg self args =
        hello_world cfg self args :=
  ⟨rfl, fun _ _ _ => rfl⟩

/-- Claim C10: the module loads under the stable name "demo", its
method table holds exactly one real entry — "world", flagged
METH_VARARGS — followed by the NULL sentinel, and the module definition
declares no per-module state (m_size is -1). -/
theorem module_demo_shape :
    PyInit_demo.name = "demo" ∧
    hellomodule.m_name = "demo" ∧
    hellomodule.m_size = -1 ∧
    realMethods PyInit_demo =
      [{ ml_name := some "world", ml_meth := some CFunction.hello_world_fn,
         ml_flags := METH_VARARGS, ml_doc := some "Return a greeting." }] ∧
    HelloMethods.getLast? =
      some { ml_name := Option.none, ml_meth := Option.none,
             ml_flags := 0, ml_doc := Option.none } := by
  refine ⟨rfl, rfl, rfl, ?_, rfl⟩
  decide
